import Mathlib

/-
Verification development for the razor trading bot repository
(src/razor.py and src/sell_tokens.py).

The Python code is shallowly embedded: parsed JSON responses become an
inductive value type, the HTTP layer becomes an oracle assigning to each
attempt number the observable outcome of that attempt (a 429 status, a
raised exception, or a parsed JSON body), and the mutable bot object
becomes an explicit state record threaded through the retry loops.
-/

/-- A parsed JSON value, as produced by response.json(). -/
inductive JVal : Type where
  | jNull : JVal
  | jBool : Bool → JVal
  | jNum : ℚ → JVal
  | jStr : String → JVal
  | jArr : List JVal → JVal
  | jObj : List (String × JVal) → JVal

/-- Python truthiness of a JSON-decoded value (bool(x)). -/
def JVal.truthy : JVal → Bool
  | .jNull => false
  | .jBool b => b
  | .jNum q => decide (q ≠ 0)
  | .jStr s => !s.isEmpty
  | .jArr l => !l.isEmpty
  | .jObj l => !l.isEmpty

/-- Python `x == []` on a JSON-decoded value: true exactly for an empty list. -/
def JVal.isEmptyList : JVal → Bool
  | .jArr [] => true
  | _ => false

/-- Key lookup in a JSON object represented as an association list
(Python dict lookup; JSON-decoded dicts have unique keys). -/
def lookupField : List (String × JVal) → String → Option JVal
  | [], _ => none
  | (k', v) :: rest, k => if k' = k then some v else lookupField rest k

/-- `d[k]` / `k in d` on a JSON value: some value when `d` is an object
holding key `k`, none otherwise (a non-object would raise TypeError at
the corresponding Python subscript, handled by the enclosing handlers). -/
def jLookup : JVal → String → Option JVal
  | .jObj fields, k => lookupField fields k
  | _, _ => none

/-- A JSON response body, as held in the Python variable `data`. -/
abbrev RespObj := List (String × JVal)

/-- Python list-of-chars prefix test used to implement substring search. -/
def charsPrefixOf : List Char → List Char → Bool
  | [], _ => true
  | _ :: _, [] => false
  | p :: ps, c :: cs => (p = c) && charsPrefixOf ps cs

/-- Substring search on char lists (Python `pat in s`). -/
def charsContain (pat : List Char) : List Char → Bool
  | [] => pat.isEmpty
  | c :: rest => charsPrefixOf pat (c :: rest) || charsContain pat rest

/-- Python `pat in s` on strings. -/
def pyStrContains (s pat : String) : Bool :=
  charsContain pat.toList s.toList

/-- Python str.strip(): drop leading and trailing whitespace. -/
def pyStrip (s : String) : String :=
  ⟨((s.data.dropWhile Char.isWhitespace).reverse.dropWhile Char.isWhitespace).reverse⟩

/-- Python str.lower() (ASCII case fold, which is all the source compares). -/
def pyLower (s : String) : String :=
  ⟨s.data.map Char.toLower⟩

/-- Python `', '.join(xs)` over a JSON array: defined when every element
is a string, none when join raises TypeError on a non-string element. -/
def joinErrors : List JVal → Option String
  | [] => some ""
  | [.jStr s] => some s
  | .jStr s :: rest => (joinErrors rest).map (fun r => s ++ ", " ++ r)
  | _ => none

/-- The success test shared verbatim by razor.py line 144/224 and
sell_tokens.py line 118:
`("success" in data and data["success"]) or
 ("signature" in data and data.get("errors", []) == [])`. -/
def isSuccessResponse (data : RespObj) : Bool :=
  (match lookupField data "success" with
   | some v => v.truthy
   | none => false)
  ||
  (match lookupField data "signature" with
   | some _ => ((lookupField data "errors").getD (JVal.jArr [])).isEmptyList
   | none => false)

/-- The error-message extraction of the unsuccessful-response branch
(razor.py lines 155-157, sell_tokens.py lines 126-128):
`error_msg = data.get('error', 'Unknown error')` then, when `errors` is a
non-empty list, `error_msg = ', '.join(data['errors'])`. Returns none when
the branch would raise (join over non-strings, or `.lower()` on a
non-string error value), which the enclosing `except Exception` catches. -/
def errorMsg (data : RespObj) : Option String :=
  let base : Option String :=
    match lookupField data "error" with
    | some (.jStr s) => some s
    | some _ => none
    | none => some "Unknown error"
  match lookupField data "errors" with
  | some (.jArr l) => if l.isEmpty then base else joinErrors l
  | _ => base

/-- The endpoint-rotation trigger of the unsuccessful-response branch:
`"rpc" in error_msg.lower() or "timeout" in error_msg.lower()`. -/
def hasRpcKeyword (msg : String) : Bool :=
  pyStrContains (pyLower msg) "rpc" || pyStrContains (pyLower msg) "timeout"

/-- Observable outcome of one HTTP attempt inside the retry loop:
a 429 status, a requests.exceptions.RequestException (connection error,
timeout, or raise_for_status on a non-2xx status), any other raised
Exception (e.g. a JSON decode failure), or a parsed JSON body. -/
inductive ApiResult : Type where
  | rateLimited : ApiResult
  | requestError : ApiResult
  | otherError : ApiResult
  | parsed : RespObj → ApiResult

namespace Razor

/-- razor.py MAX_RETRIES. -/
def MAX_RETRIES : Nat := 3

/-- razor.py SOLANA_RPC_ENDPOINTS. -/
def SOLANA_RPC_ENDPOINTS : List String :=
  ["https://api.mainnet-beta.solana.com",
   "https://solana-api.projectserum.com",
   "https://rpc.ankr.com/solana",
   "https://solana-mainnet.g.alchemy.com/v2/demo",
   "https://mainnet.solana.blockdaemon.tech",
   "https://solana-mainnet.rpc.extrnode.com",
   "https://mainnet.helius-rpc.com/?api-key=1d8740dc-e5f4-421c-b823-e1bad1889eff"]

/-- The mutable fields of the RazorBot object that the retry loops touch.
`rotations` instruments the model: it counts calls to rotate_rpc_endpoint
(the source has no such counter; it is observation only and is written by
no other operation). -/
structure BotState : Type where
  currentRpcIndex : Nat
  totalTrades : Nat
  successfulTrades : Nat
  failedTrades : Nat
  rotations : Nat

/-- RazorBot.__init__ counter initialisation. -/
def mkInitialState : BotState :=
  { currentRpcIndex := 0, totalTrades := 0, successfulTrades := 0,
    failedTrades := 0, rotations := 0 }

/-- RazorBot.rotate_rpc_endpoint:
`self.current_rpc_index = (self.current_rpc_index + 1) % len(SOLANA_RPC_ENDPOINTS)`. -/
def rotate_rpc_endpoint (s : BotState) : BotState :=
  { s with currentRpcIndex := (s.currentRpcIndex + 1) % SOLANA_RPC_ENDPOINTS.length,
           rotations := s.rotations + 1 }

/-- RazorBot.get_current_rpc_endpoint (the index invariant keeps it in
bounds; out of bounds is mapped to ""). -/
def get_current_rpc_endpoint (s : BotState) : String :=
  SOLANA_RPC_ENDPOINTS.getD s.currentRpcIndex ""

/-- RazorBot.format_token_address: `token_address.strip()` and return. -/
def format_token_address (token_address : String) : String :=
  pyStrip token_address

/-- The retry loop shared by RazorBot.buy_token and RazorBot.sell_token
(razor.py lines 121-183 and 201-263; the two loops are textually identical
apart from the payload, which does not influence control flow, counters or
rotation). `oracle` gives the observable result of the attempt numbered
`attempt`; `remaining` counts the iterations the `for` loop has left.
On a 429: rotate and continue. On a RequestException or any other
Exception: rotate and continue. On a parsed body: success terminates the
loop returning the body and incrementing successful_trades and
total_trades; otherwise the error message is extracted and the endpoint is
rotated exactly when it contains an rpc/timeout keyword (a raised
extraction is caught by `except Exception`, which rotates). Exhaustion
increments failed_trades and total_trades and returns none. The
`payload["rpcEndpoint"]` refreshes and the `time.sleep` calls are not
modelled: they affect no returned value, counter, index or rotation count. -/
def tradeAttempts (oracle : Nat → ApiResult) :
    Nat → Nat → BotState → Option RespObj × BotState
  | 0, _, s =>
      (none, { s with failedTrades := s.failedTrades + 1,
                      totalTrades := s.totalTrades + 1 })
  | remaining + 1, attempt, s =>
      match oracle attempt with
      | .rateLimited => tradeAttempts oracle remaining (attempt + 1) (rotate_rpc_endpoint s)
      | .requestError => tradeAttempts oracle remaining (attempt + 1) (rotate_rpc_endpoint s)
      | .otherError => tradeAttempts oracle remaining (attempt + 1) (rotate_rpc_endpoint s)
      | .parsed data =>
          if isSuccessResponse data then
            (some data, { s with successfulTrades := s.successfulTrades + 1,
                                 totalTrades := s.totalTrades + 1 })
          else
            match errorMsg data with
            | some msg =>
                if hasRpcKeyword msg then
                  tradeAttempts oracle remaining (attempt + 1) (rotate_rpc_endpoint s)
                else
                  tradeAttempts oracle remaining (attempt + 1) s
            | none => tradeAttempts oracle remaining (attempt + 1) (rotate_rpc_endpoint s)

/-- RazorBot.buy_token: run the retry loop for attempts 1..MAX_RETRIES. -/
def buy_token (oracle : Nat → ApiResult) (s : BotState) : Option RespObj × BotState :=
  tradeAttempts oracle MAX_RETRIES 1 s

/-- RazorBot.sell_token: same loop, attempts 1..MAX_RETRIES. -/
def sell_token (oracle : Nat → ApiResult) (s : BotState) : Option RespObj × BotState :=
  tradeAttempts oracle MAX_RETRIES 1 s

/-- The JSON body posted to the trade endpoint. -/
structure TradePayload : Type where
  action : String
  mint : String
  amount : String
  denominatedInSol : String
  slippage : String
  priorityFee : String
  rpcEndpoint : String
  skipPreflight : String

/-- The payload constructed by RazorBot.buy_token lines 110-119
(`str()` of the numeric constants written as their decimal text:
str(0.015) = "0.015", str(15) = "15", str(0.001) = "0.001"). -/
def buy_payload (token_address : String) (s : BotState) : TradePayload :=
  { action := "buy",
    mint := format_token_address token_address,
    amount := "0.015",
    denominatedInSol := "true",
    slippage := "15",
    priorityFee := "0.001",
    rpcEndpoint := get_current_rpc_endpoint s,
    skipPreflight := "true" }

/-- The payload constructed by RazorBot.sell_token lines 190-199
(`"100%" if amount is None else str(amount)`; the optional amount is
modelled already stringified). -/
def sell_payload (token_address : String) (amount : Option String)
    (s : BotState) : TradePayload :=
  { action := "sell",
    mint := format_token_address token_address,
    amount := match amount with | none => "100%" | some a => a,
    denominatedInSol := "false",
    slippage := "15",
    priorityFee := "0.001",
    rpcEndpoint := get_current_rpc_endpoint s,
    skipPreflight := "true" }

/-- Python truthiness of `buy_result` / `sell_result` at the
`if not buy_result:` / `if not sell_result:` tests of
execute_trade_cycle: None and the empty dict are falsy. -/
def pyTruthy : Option RespObj → Bool
  | none => false
  | some d => !d.isEmpty

/-- Result of one trade cycle. `sellIssued` instruments the model: it
records whether the sell request was sent at all (the short-circuit
observable; the source has no such flag). -/
structure CycleOutcome : Type where
  success : Bool
  state : BotState
  sellIssued : Bool

/-- RazorBot.execute_trade_cycle (razor.py lines 265-289): buy, and on a
falsy buy result return False without selling; otherwise sell (the
`amount_out` hint only alters the sell payload, not control flow) and
return True exactly when the sell result is truthy. -/
def execute_trade_cycle (buyOracle sellOracle : Nat → ApiResult)
    (s : BotState) : CycleOutcome :=
  let br := buy_token buyOracle s
  if pyTruthy br.1 then
    let sr := sell_token sellOracle br.2
    if pyTruthy sr.1 then
      { success := true, state := sr.2, sellIssued := true }
    else
      { success := false, state := sr.2, sellIssued := true }
  else
    { success := false, state := br.2, sellIssued := false }

/-- The trades-per-minute computation of RazorBot.run, identical at the
per-iteration site (line 312) and the final-summary site (line 327):
`(self.total_trades / elapsed) * 60 if elapsed > 0 else 0`. -/
def tradesPerMinute (totalTrades : Nat) (elapsed : ℚ) : ℚ :=
  if elapsed > 0 then ((totalTrades : ℚ) / elapsed) * 60 else 0

/-- One completed buy_token or sell_token call together with the attempt
results it observed: the unit at which the session counters are read. -/
inductive TradeCall : Type where
  | buy : (Nat → ApiResult) → TradeCall
  | sell : (Nat → ApiResult) → TradeCall

/-- The effect of one completed call on the bot state. -/
def runCall (s : BotState) : TradeCall → BotState
  | .buy oracle => (buy_token oracle s).2
  | .sell oracle => (sell_token oracle s).2

/-- The bot state observed after a sequence of completed calls, starting
from the freshly constructed bot. -/
def runTrace (calls : List TradeCall) : BotState :=
  calls.foldl runCall mkInitialState

end Razor

namespace SellTokens

/-- sell_tokens.py MAX_RETRIES. -/
def MAX_RETRIES : Nat := 5

/-- sell_tokens.py SOLANA_RPC_ENDPOINTS (the same seven endpoints). -/
def SOLANA_RPC_ENDPOINTS : List String :=
  Razor.SOLANA_RPC_ENDPOINTS

/-- The mutable fields of the TokenSeller object (it has no trade
counters). `rotations` instruments the model exactly as in BotState. -/
structure SellerState : Type where
  currentRpcIndex : Nat
  rotations : Nat

/-- TokenSeller.__init__ index initialisation. -/
def mkSellerState : SellerState :=
  { currentRpcIndex := 0, rotations := 0 }

/-- TokenSeller.rotate_rpc_endpoint. -/
def rotate_rpc_endpoint (st : SellerState) : SellerState :=
  { st with currentRpcIndex := (st.currentRpcIndex + 1) % SOLANA_RPC_ENDPOINTS.length,
            rotations := st.rotations + 1 }

/-- The retry loop of TokenSeller.sell_token (sell_tokens.py lines
95-152): same classification as the razor loops, but it returns a plain
Bool (True on success, False after exhaustion) and touches no counters. -/
def sellAttempts (oracle : Nat → ApiResult) :
    Nat → Nat → SellerState → Bool × SellerState
  | 0, _, st => (false, st)
  | remaining + 1, attempt, st =>
      match oracle attempt with
      | .rateLimited => sellAttempts oracle remaining (attempt + 1) (rotate_rpc_endpoint st)
      | .requestError => sellAttempts oracle remaining (attempt + 1) (rotate_rpc_endpoint st)
      | .otherError => sellAttempts oracle remaining (attempt + 1) (rotate_rpc_endpoint st)
      | .parsed data =>
          if isSuccessResponse data then
            (true, st)
          else
            match errorMsg data with
            | some msg =>
                if hasRpcKeyword msg then
                  sellAttempts oracle remaining (attempt + 1) (rotate_rpc_endpoint st)
                else
                  sellAttempts oracle remaining (attempt + 1) st
            | none => sellAttempts oracle remaining (attempt + 1) (rotate_rpc_endpoint st)

/-- TokenSeller.sell_token: run the loop for attempts 1..MAX_RETRIES. -/
def sell_token (oracle : Nat → ApiResult) (st : SellerState) : Bool × SellerState :=
  sellAttempts oracle MAX_RETRIES 1 st

/-- Observable outcome of the single RPC call made by get_wallet_tokens:
either some raised exception (transport failure, non-2xx status via
raise_for_status, JSON decode failure, or any later fault caught by the
enclosing `except Exception`), or a parsed JSON body. -/
inductive RpcResult : Type where
  | exn : RpcResult
  | parsed : JVal → RpcResult

/-- Python numeric coercion at `amount > 0`: defined for numbers and
booleans (True compares as 1); none when the comparison would raise
TypeError (null, string, list, dict), which the per-account handler
catches. -/
def asPyNumber : JVal → Option ℚ
  | .jNum q => some q
  | .jBool b => some (if b then 1 else 0)
  | _ => none

/-- Nested subscripting `v[k1][k2]...`; none as soon as a step would
raise KeyError or TypeError. -/
def jPath (v : JVal) : List String → Option JVal
  | [] => some v
  | k :: rest =>
      match jLookup v k with
      | some v' => jPath v' rest
      | none => none

/-- The per-account body of get_wallet_tokens (sell_tokens.py lines
183-193): read account["account"]["data"]["parsed"]["info"], its "mint"
and its ["tokenAmount"]["uiAmount"], and keep the record exactly when the
amount compares strictly greater than 0; any KeyError/TypeError on the
way makes the loop `continue`, i.e. yields none. The mint value is
appended unvalidated, so it stays a JVal. -/
def parseTokenAccount (account : JVal) : Option (JVal × ℚ) :=
  match jPath account ["account", "data", "parsed", "info"] with
  | none => none
  | some info =>
      match jLookup info "mint" with
      | none => none
      | some mint =>
          match jPath info ["tokenAmount", "uiAmount"] with
          | none => none
          | some av =>
              match asPyNumber av with
              | none => none
              | some q => if 0 < q then some (mint, q) else none

/-- TokenSeller.get_wallet_tokens (sell_tokens.py lines 154-199): on any
raised exception return []; otherwise walk data["result"]["value"] and
collect the parsed accounts. When "result" or "value" is absent the guard
skips the loop and [] is returned; when "value" is not a JSON array the
Python iteration either skips every element through the per-account
handler or raises into the outer handler, returning [] in every case,
which the non-array branch models. -/
def get_wallet_tokens : RpcResult → List (JVal × ℚ)
  | .exn => []
  | .parsed data =>
      match jLookup data "result" with
      | none => []
      | some res =>
          match jLookup res "value" with
          | some (.jArr accounts) => accounts.filterMap parseTokenAccount
          | some _ => []
          | none => []

/-- A concrete well-formed token-account record, used to exercise
get_wallet_tokens on explicit input. -/
def sampleTokenAccount : JVal :=
  JVal.jObj [("account", JVal.jObj [("data", JVal.jObj [("parsed", JVal.jObj
    [("info", JVal.jObj [("mint", JVal.jStr "m1"),
      ("tokenAmount", JVal.jObj [("uiAmount", JVal.jNum 3)])])])])])]

/-- A concrete well-formed getTokenAccountsByOwner response body holding
the sample account. -/
def sampleWalletResponse : JVal :=
  JVal.jObj [("result", JVal.jObj [("value", JVal.jArr [sampleTokenAccount])])]

end SellTokens

/-- The pure rotation step on an index over `n` endpoints, as performed
by both rotate_rpc_endpoint implementations: `(i + 1) % n`. -/
def rotateIndex (n i : Nat) : Nat := (i + 1) % n


/-- An empty-list test succeeds exactly on the empty JSON array. -/
theorem JVal.isEmptyList_eq_true_iff (v : JVal) :
    v.isEmptyList = true ↔ v = JVal.jArr [] := by
  cases v with
  | jArr l => cases l <;> simp [JVal.isEmptyList]
  | jNull => simp [JVal.isEmptyList]
  | jBool b => simp [JVal.isEmptyList]
  | jNum q => simp [JVal.isEmptyList]
  | jStr s => simp [JVal.isEmptyList]
  | jObj l => simp [JVal.isEmptyList]

/-- Rotation changes only the index and the rotation count. -/
theorem Razor.rotate_counters (s : Razor.BotState) :
    (Razor.rotate_rpc_endpoint s).totalTrades = s.totalTrades ∧
    (Razor.rotate_rpc_endpoint s).successfulTrades = s.successfulTrades ∧
    (Razor.rotate_rpc_endpoint s).failedTrades = s.failedTrades :=
  ⟨rfl, rfl, rfl⟩

/-- Counter bookkeeping of the razor retry loop: every completed call adds
one to total_trades, and adds one to exactly the counter matching its
result. -/
theorem Razor.tradeAttempts_counters (oracle : Nat → ApiResult) :
    ∀ (remaining attempt : Nat) (s : Razor.BotState),
      (Razor.tradeAttempts oracle remaining attempt s).2.totalTrades = s.totalTrades + 1 ∧
      (Razor.tradeAttempts oracle remaining attempt s).2.successfulTrades =
        (if (Razor.tradeAttempts oracle remaining attempt s).1.isSome then
          s.successfulTrades + 1 else s.successfulTrades) ∧
      (Razor.tradeAttempts oracle remaining attempt s).2.failedTrades =
        (if (Razor.tradeAttempts oracle remaining attempt s).1.isSome then
          s.failedTrades else s.failedTrades + 1) := by
  intro remaining
  induction remaining with
  | zero => intro attempt s; exact ⟨rfl, rfl, rfl⟩
  | succ n ih =>
    intro attempt s
    cases h : oracle attempt with
    | rateLimited =>
      have := ih (attempt + 1) (Razor.rotate_rpc_endpoint s)
      simpa [Razor.tradeAttempts, h, Razor.rotate_rpc_endpoint] using this
    | requestError =>
      have := ih (attempt + 1) (Razor.rotate_rpc_endpoint s)
      simpa [Razor.tradeAttempts, h, Razor.rotate_rpc_endpoint] using this
    | otherError =>
      have := ih (attempt + 1) (Razor.rotate_rpc_endpoint s)
      simpa [Razor.tradeAttempts, h, Razor.rotate_rpc_endpoint] using this
    | parsed data =>
      by_cases hs : isSuccessResponse data = true
      · simp [Razor.tradeAttempts, h, hs]
      · cases hm : errorMsg data with
        | none =>
          have := ih (attempt + 1) (Razor.rotate_rpc_endpoint s)
          simpa [Razor.tradeAttempts, h, hs, hm, Razor.rotate_rpc_endpoint] using this
        | some msg =>
          by_cases hk : hasRpcKeyword msg = true
          · have := ih (attempt + 1) (Razor.rotate_rpc_endpoint s)
            simpa [Razor.tradeAttempts, h, hs, hm, hk, Razor.rotate_rpc_endpoint] using this
          · have := ih (attempt + 1) s
            simpa [Razor.tradeAttempts, h, hs, hm, hk] using this

/-- The razor retry loop returns a body only when that body passed the
success classification. -/
theorem Razor.tradeAttempts_some_isSuccess (oracle : Nat → ApiResult) :
    ∀ (remaining attempt : Nat) (s : Razor.BotState) (d : RespObj),
      (Razor.tradeAttempts oracle remaining attempt s).1 = some d →
      isSuccessResponse d = true := by
  intro remaining
  induction remaining with
  | zero => intro attempt s d hd; simp [Razor.tradeAttempts] at hd
  | succ n ih =>
    intro attempt s d hd
    cases h : oracle attempt with
    | rateLimited => exact ih _ _ d (by simpa [Razor.tradeAttempts, h] using hd)
    | requestError => exact ih _ _ d (by simpa [Razor.tradeAttempts, h] using hd)
    | otherError => exact ih _ _ d (by simpa [Razor.tradeAttempts, h] using hd)
    | parsed data =>
      by_cases hs : isSuccessResponse data = true
      · simp [Razor.tradeAttempts, h, hs] at hd
        exact hd ▸ hs
      · cases hm : errorMsg data with
        | none => exact ih _ _ d (by simpa [Razor.tradeAttempts, h, hs, hm] using hd)
        | some msg =>
          by_cases hk : hasRpcKeyword msg = true
          · exact ih _ _ d (by simpa [Razor.tradeAttempts, h, hs, hm, hk] using hd)
          · exact ih _ _ d (by simpa [Razor.tradeAttempts, h, hs, hm, hk] using hd)

/-- A retry loop that classifies its current attempt as a success returns
that body at once, incrementing the success and total counters. -/
theorem Razor.tradeAttempts_success_now (oracle : Nat → ApiResult)
    (remaining attempt : Nat) (s : Razor.BotState) (data : RespObj)
    (h : oracle attempt = ApiResult.parsed data)
    (hs : isSuccessResponse data = true) :
    Razor.tradeAttempts oracle (remaining + 1) attempt s =
      (some data, { s with successfulTrades := s.successfulTrades + 1,
                           totalTrades := s.totalTrades + 1 }) := by
  simp [Razor.tradeAttempts, h, hs]

/-- The seller loop analogue: a success on the current attempt returns
True with the state untouched. -/
theorem SellTokens.sellAttempts_success_now (oracle : Nat → ApiResult)
    (remaining attempt : Nat) (st : SellTokens.SellerState) (data : RespObj)
    (h : oracle attempt = ApiResult.parsed data)
    (hs : isSuccessResponse data = true) :
    SellTokens.sellAttempts oracle (remaining + 1) attempt st = (true, st) := by
  simp [SellTokens.sellAttempts, h, hs]

/-- Effect of one completed call on the counters: total_trades up by one,
and exactly one of the other two counters up by one. -/
theorem Razor.runCall_spec (s : Razor.BotState) (c : Razor.TradeCall) :
    (Razor.runCall s c).totalTrades = s.totalTrades + 1 ∧
    (((Razor.runCall s c).successfulTrades = s.successfulTrades + 1 ∧
      (Razor.runCall s c).failedTrades = s.failedTrades) ∨
     ((Razor.runCall s c).failedTrades = s.failedTrades + 1 ∧
      (Razor.runCall s c).successfulTrades = s.successfulTrades)) := by
  cases c with
  | buy oracle =>
    obtain ⟨h1, h2, h3⟩ := Razor.tradeAttempts_counters oracle Razor.MAX_RETRIES 1 s
    refine ⟨h1, ?_⟩
    cases hio : (Razor.tradeAttempts oracle Razor.MAX_RETRIES 1 s).1.isSome
    · rw [hio] at h2 h3
      simp only [Bool.false_eq_true, if_false] at h2 h3
      exact Or.inr ⟨h3, h2⟩
    · rw [hio] at h2 h3
      simp only [if_true] at h2 h3
      exact Or.inl ⟨h2, h3⟩
  | sell oracle =>
    obtain ⟨h1, h2, h3⟩ := Razor.tradeAttempts_counters oracle Razor.MAX_RETRIES 1 s
    refine ⟨h1, ?_⟩
    cases hio : (Razor.tradeAttempts oracle Razor.MAX_RETRIES 1 s).1.isSome
    · rw [hio] at h2 h3
      simp only [Bool.false_eq_true, if_false] at h2 h3
      exact Or.inr ⟨h3, h2⟩
    · rw [hio] at h2 h3
      simp only [if_true] at h2 h3
      exact Or.inl ⟨h2, h3⟩

/-- Iterating the rotation step walks the index additively modulo n. -/
theorem rotateIndex_iterate (n i : Nat) (hi : i < n) :
    ∀ k, (rotateIndex n)^[k] i = (i + k) % n := by
  intro k
  induction k with
  | zero => simpa using (Nat.mod_eq_of_lt hi).symm
  | succ m ih =>
    rw [Function.iterate_succ_apply', ih, rotateIndex, Nat.mod_add_mod, Nat.add_assoc]

/-- Claim C1: a parsed response is classified Success exactly when it has
a truthy "success" value, or has a "signature" key with an "errors" value
(defaulting to the empty list) equal to the empty list; on that
classification the loop terminates, the call returns the response data,
and successful_trades and total_trades each increment by one with no
failed_trades increment. -/
theorem C1_success_classification (data : RespObj) (oracle : Nat → ApiResult)
    (s : Razor.BotState) (sst : SellTokens.SellerState)
    (hfirst : oracle 1 = ApiResult.parsed data) :
    (isSuccessResponse data = true ↔
      ((∃ v, lookupField data "success" = some v ∧ v.truthy = true) ∨
       ((∃ v, lookupField data "signature" = some v) ∧
        (lookupField data "errors").getD (JVal.jArr []) = JVal.jArr []))) ∧
    (isSuccessResponse data = true →
      Razor.buy_token oracle s =
        (some data, { s with successfulTrades := s.successfulTrades + 1,
                             totalTrades := s.totalTrades + 1 }) ∧
      Razor.sell_token oracle s =
        (some data, { s with successfulTrades := s.successfulTrades + 1,
                             totalTrades := s.totalTrades + 1 }) ∧
      SellTokens.sell_token oracle sst = (true, sst)) := by
  constructor
  · unfold isSuccessResponse
    cases h1 : lookupField data "success" with
    | none =>
      cases h2 : lookupField data "signature" with
      | none => simp
      | some w => simp [JVal.isEmptyList_eq_true_iff]
    | some v =>
      cases h2 : lookupField data "signature" with
      | none => simp
      | some w => simp [JVal.isEmptyList_eq_true_iff]
  · intro hs
    refine ⟨?_, ?_, ?_⟩
    · exact Razor.tradeAttempts_success_now oracle 2 1 s data hfirst hs
    · exact Razor.tradeAttempts_success_now oracle 2 1 s data hfirst hs
    · exact SellTokens.sellAttempts_success_now oracle 4 1 sst data hfirst hs

/-- Witness for C1 at a concrete success response. -/
theorem C1_success_classification_witness :
    (fun _ : Nat => ApiResult.parsed [("success", JVal.jBool true)]) 1 =
      ApiResult.parsed [("success", JVal.jBool true)] ∧
    isSuccessResponse [("success", JVal.jBool true)] = true ∧
    Razor.buy_token (fun _ => ApiResult.parsed [("success", JVal.jBool true)])
        Razor.mkInitialState =
      (some [("success", JVal.jBool true)],
       { Razor.mkInitialState with successfulTrades := 1, totalTrades := 1 }) :=
  ⟨rfl, by decide,
   ((C1_success_classification [("success", JVal.jBool true)] _
      Razor.mkInitialState SellTokens.mkSellerState rfl).2 (by decide)).1⟩

/-- Claim C2 as stated is false: with every attempt rate-limited, the
rotator is advanced three times, not twice — the 429 branch rotates after
the final attempt as well. -/
theorem C2_rate_limit_counterexample :
    (Razor.buy_token (fun _ => ApiResult.rateLimited) Razor.mkInitialState).2.rotations ≠ 2 ∧
    (Razor.buy_token (fun _ => ApiResult.rateLimited) Razor.mkInitialState).2.rotations = 3 ∧
    (Razor.buy_token (fun _ => ApiResult.rateLimited) Razor.mkInitialState).1 = none :=
  ⟨by decide, by decide, rfl⟩

/-- Claim C2 amended: with maxAttempts = 3 and every attempt receiving an
HTTP 429, the rotator is advanced exactly three times — once after every
rate-limited attempt, including the final one — and the call terminates
exhausted, returning None and recording one failure. -/
theorem C2_rate_limit_rotation :
    ∀ s : Razor.BotState,
      (Razor.buy_token (fun _ => ApiResult.rateLimited) s).1 = none ∧
      (Razor.buy_token (fun _ => ApiResult.rateLimited) s).2.rotations = s.rotations + 3 ∧
      (Razor.buy_token (fun _ => ApiResult.rateLimited) s).2.failedTrades = s.failedTrades + 1 ∧
      (Razor.buy_token (fun _ => ApiResult.rateLimited) s).2.totalTrades = s.totalTrades + 1 ∧
      (Razor.sell_token (fun _ => ApiResult.rateLimited) s).1 = none ∧
      (Razor.sell_token (fun _ => ApiResult.rateLimited) s).2.rotations = s.rotations + 3 := by
  intro s
  exact ⟨rfl, rfl, rfl, rfl, rfl, rfl⟩

/-- Claim C3: the cycle issues no sell when the buy leg did not succeed,
and reports success exactly when both legs succeeded. -/
theorem C3_cycle_short_circuit :
    ∀ (bo so : Nat → ApiResult) (s : Razor.BotState),
      (Razor.execute_trade_cycle bo so s).sellIssued = (Razor.buy_token bo s).1.isSome ∧
      (Razor.execute_trade_cycle bo so s).success =
        ((Razor.buy_token bo s).1.isSome &&
         (Razor.sell_token so (Razor.buy_token bo s).2).1.isSome) := by
  intro bo so s
  have hnone : Razor.pyTruthy none = false := rfl
  cases hbo : (Razor.buy_token bo s).1 with
  | none => simp [Razor.execute_trade_cycle, hbo, hnone]
  | some d =>
    have hT : Razor.pyTruthy (some d) = true := by
      cases d with
      | nil =>
        exact absurd (Razor.tradeAttempts_some_isSuccess bo Razor.MAX_RETRIES 1 s [] hbo)
          (by decide)
      | cons hd tl => rfl
    cases hio : (Razor.sell_token so (Razor.buy_token bo s).2).1 with
    | none => simp [Razor.execute_trade_cycle, hbo, hT, hio, hnone]
    | some e =>
      have hT2 : Razor.pyTruthy (some e) = true := by
        cases e with
        | nil =>
          exact absurd
            (Razor.tradeAttempts_some_isSuccess so Razor.MAX_RETRIES 1
              (Razor.buy_token bo s).2 [] hio) (by decide)
        | cons hd tl => rfl
      simp [Razor.execute_trade_cycle, hbo, hT, hio, hT2]

/-- Claim C4: at every observation point total_trades equals
successful_trades plus failed_trades, all three counters are monotone
along a run, and each completed call increments exactly one of the
success and failure counters. -/
theorem C4_counter_invariant :
    (∀ calls : List Razor.TradeCall,
      (Razor.runTrace calls).totalTrades =
        (Razor.runTrace calls).successfulTrades + (Razor.runTrace calls).failedTrades) ∧
    (∀ (calls : List Razor.TradeCall) (c : Razor.TradeCall),
      (Razor.runTrace calls).totalTrades ≤ (Razor.runTrace (calls ++ [c])).totalTrades ∧
      (Razor.runTrace calls).successfulTrades ≤
        (Razor.runTrace (calls ++ [c])).successfulTrades ∧
      (Razor.runTrace calls).failedTrades ≤ (Razor.runTrace (calls ++ [c])).failedTrades) ∧
    (∀ (s : Razor.BotState) (c : Razor.TradeCall),
      ((Razor.runCall s c).successfulTrades = s.successfulTrades + 1 ∧
       (Razor.runCall s c).failedTrades = s.failedTrades) ∨
      ((Razor.runCall s c).failedTrades = s.failedTrades + 1 ∧
       (Razor.runCall s c).successfulTrades = s.successfulTrades)) := by
  have happ : ∀ (calls : List Razor.TradeCall) (c : Razor.TradeCall),
      Razor.runTrace (calls ++ [c]) = Razor.runCall (Razor.runTrace calls) c := by
    intro calls c
    simp [Razor.runTrace, List.foldl_append]
  refine ⟨?_, ?_, fun s c => (Razor.runCall_spec s c).2⟩
  · intro calls
    have key : ∀ (l : List Razor.TradeCall) (s : Razor.BotState),
        s.totalTrades = s.successfulTrades + s.failedTrades →
        (l.foldl Razor.runCall s).totalTrades =
          (l.foldl Razor.runCall s).successfulTrades +
            (l.foldl Razor.runCall s).failedTrades := by
      intro l
      induction l with
      | nil => intro s hs; exact hs
      | cons c rest ih =>
        intro s hs
        apply ih
        rcases Razor.runCall_spec s c with ⟨h1, ⟨h2, h3⟩ | ⟨h2, h3⟩⟩ <;> omega
    exact key calls Razor.mkInitialState rfl
  · intro calls c
    rw [happ calls c]
    rcases Razor.runCall_spec (Razor.runTrace calls) c with ⟨h1, ⟨h2, h3⟩ | ⟨h2, h3⟩⟩ <;>
      exact ⟨by omega, by omega, by omega⟩

/-- Claim C5 as stated is false: a whitespace-only identifier is not
rejected — no InvalidInputError exists anywhere in the source — and the
trade request is constructed with an empty mint field. -/
theorem C5_empty_identifier_counterexample :
    Razor.format_token_address " " = "" ∧
    (Razor.buy_payload " " Razor.mkInitialState).mint = "" ∧
    (Razor.sell_payload " " none Razor.mkInitialState).mint = "" ∧
    (Razor.buy_payload "" Razor.mkInitialState).mint = "" :=
  ⟨by decide, by decide, by decide, by decide⟩

/-- Claim C5 amended: the request builder trims the identifier, but an
empty or whitespace-only identifier is not rejected; the request is
constructed anyway, with an empty mint field. -/
theorem C5_trim_without_validation :
    ∀ (token : String) (amount : Option String) (s : Razor.BotState),
      Razor.format_token_address token = pyStrip token ∧
      (Razor.buy_payload token s).mint = pyStrip token ∧
      (Razor.sell_payload token amount s).mint = pyStrip token := by
  intro token amount s
  exact ⟨rfl, rfl, rfl⟩

/-- Claim C6: rotation maps index i to (i + 1) mod N, N consecutive
rotations restore the starting index, and the index stays within
0 <= index < N; both source rotators implement exactly this step over
their endpoint list. -/
theorem C6_rotation_cycle (n i : Nat) (hn : 1 ≤ n) (hi : i < n) :
    (rotateIndex n)^[n] i = i ∧
    (∀ k, (rotateIndex n)^[k] i < n) ∧
    (∀ j, rotateIndex n j = (j + 1) % n) ∧
    (∀ s : Razor.BotState, (Razor.rotate_rpc_endpoint s).currentRpcIndex =
      rotateIndex Razor.SOLANA_RPC_ENDPOINTS.length s.currentRpcIndex) ∧
    (∀ st : SellTokens.SellerState, (SellTokens.rotate_rpc_endpoint st).currentRpcIndex =
      rotateIndex SellTokens.SOLANA_RPC_ENDPOINTS.length st.currentRpcIndex) := by
  refine ⟨?_, ?_, fun j => rfl, fun s => rfl, fun st => rfl⟩
  · rw [rotateIndex_iterate n i hi n, Nat.add_mod_right]
    exact Nat.mod_eq_of_lt hi
  · intro k
    rw [rotateIndex_iterate n i hi k]
    exact Nat.mod_lt _ hn

/-- Witness for C6 on the seven-endpoint list of the source. -/
theorem C6_rotation_cycle_witness :
    1 ≤ 7 ∧ 2 < 7 ∧ (rotateIndex 7)^[7] 2 = 2 :=
  ⟨by decide, by decide, (C6_rotation_cycle 7 2 (by decide) (by decide)).1⟩

/-- Claim C7: for every sequence of attempt outcomes the calls return a
value — either a success payload (one that passed the success
classification) or None — and the None outcome increments failed_trades
exactly once while a success outcome leaves it unchanged. -/
theorem C7_no_exception_propagation :
    ∀ (oracle : Nat → ApiResult) (s : Razor.BotState),
      ((Razor.buy_token oracle s).1 = none ∨ ∃ d, (Razor.buy_token oracle s).1 = some d) ∧
      (Razor.buy_token oracle s).2.failedTrades =
        (if (Razor.buy_token oracle s).1.isSome then s.failedTrades else s.failedTrades + 1) ∧
      (∀ d, (Razor.buy_token oracle s).1 = some d → isSuccessResponse d = true) ∧
      ((Razor.sell_token oracle s).1 = none ∨ ∃ d, (Razor.sell_token oracle s).1 = some d) ∧
      (Razor.sell_token oracle s).2.failedTrades =
        (if (Razor.sell_token oracle s).1.isSome then s.failedTrades else s.failedTrades + 1) ∧
      (∀ d, (Razor.sell_token oracle s).1 = some d → isSuccessResponse d = true) := by
  intro oracle s
  refine ⟨?_, (Razor.tradeAttempts_counters oracle Razor.MAX_RETRIES 1 s).2.2,
    fun d hd => Razor.tradeAttempts_some_isSuccess oracle Razor.MAX_RETRIES 1 s d hd,
    ?_, (Razor.tradeAttempts_counters oracle Razor.MAX_RETRIES 1 s).2.2,
    fun d hd => Razor.tradeAttempts_some_isSuccess oracle Razor.MAX_RETRIES 1 s d hd⟩
  · cases h : (Razor.buy_token oracle s).1 with
    | none => exact Or.inl rfl
    | some d => exact Or.inr ⟨d, rfl⟩
  · cases h : (Razor.sell_token oracle s).1 with
    | none => exact Or.inl rfl
    | some d => exact Or.inr ⟨d, rfl⟩

/-- Witness for C7 at an oracle whose every attempt raises a transport
error: the call returns with one failure recorded. -/
theorem C7_no_exception_propagation_witness :
    (Razor.buy_token (fun _ => ApiResult.requestError) Razor.mkInitialState).2.failedTrades =
      (if (Razor.buy_token (fun _ => ApiResult.requestError) Razor.mkInitialState).1.isSome
        then 0 else 0 + 1) :=
  (C7_no_exception_propagation (fun _ => ApiResult.requestError) Razor.mkInitialState).2.1

/-- Claim C8: the trades-per-minute computation is guarded — zero elapsed
time reports 0, positive elapsed time reports total / elapsed * 60. -/
theorem C8_tpm_guard :
    (∀ total : Nat, Razor.tradesPerMinute total 0 = 0) ∧
    (∀ (total : Nat) (elapsed : ℚ), 0 < elapsed →
      Razor.tradesPerMinute total elapsed = ((total : ℚ) / elapsed) * 60) ∧
    (∀ (total : Nat) (elapsed : ℚ), elapsed ≤ 0 →
      Razor.tradesPerMinute total elapsed = 0) := by
  refine ⟨fun total => ?_, fun total elapsed h => ?_, fun total elapsed h => ?_⟩
  · simp [Razor.tradesPerMinute]
  · simp [Razor.tradesPerMinute, h]
  · simp [Razor.tradesPerMinute, not_lt.mpr h]

/-- Witness for C8 at a positive elapsed time. -/
theorem C8_tpm_guard_witness :
    (0 : ℚ) < 2 ∧ Razor.tradesPerMinute 5 2 = ((5 : ℚ) / 2) * 60 :=
  ⟨by norm_num, by exact_mod_cast C8_tpm_guard.2.1 5 2 (by norm_num)⟩

/-- Claim C9: a response holding a signature but no errors key at all is
classified Success, identically to one holding an explicitly empty errors
list, and both loops return it as a success. -/
theorem C9_missing_errors_field :
    isSuccessResponse [("signature", JVal.jStr "abc123")] = true ∧
    isSuccessResponse [("signature", JVal.jStr "abc123"), ("errors", JVal.jArr [])] = true ∧
    (Razor.buy_token (fun _ => ApiResult.parsed [("signature", JVal.jStr "abc123")])
        Razor.mkInitialState).1 = some [("signature", JVal.jStr "abc123")] ∧
    (Razor.sell_token (fun _ => ApiResult.parsed [("signature", JVal.jStr "abc123")])
        Razor.mkInitialState).1 = some [("signature", JVal.jStr "abc123")] ∧
    (SellTokens.sell_token (fun _ => ApiResult.parsed [("signature", JVal.jStr "abc123")])
        SellTokens.mkSellerState).1 = true :=
  ⟨by decide, by decide, rfl, rfl, by decide⟩

/-- Claim C10: get_wallet_tokens maps every raised exception to the empty
list, and on a well-formed response returns exactly the accounts whose
parse succeeds — every parsed record carries a uiAmount strictly greater
than zero, and malformed accounts contribute nothing. -/
theorem C10_wallet_tokens (data res : JVal) (accounts : List JVal)
    (hres : jLookup data "result" = some res)
    (hval : jLookup res "value" = some (JVal.jArr accounts)) :
    SellTokens.get_wallet_tokens SellTokens.RpcResult.exn = [] ∧
    (∀ tok : JVal × ℚ,
      tok ∈ SellTokens.get_wallet_tokens (SellTokens.RpcResult.parsed data) ↔
        ∃ account ∈ accounts, SellTokens.parseTokenAccount account = some tok) ∧
    (∀ (account : JVal) (tok : JVal × ℚ),
      SellTokens.parseTokenAccount account = some tok → 0 < tok.2) := by
  refine ⟨rfl, ?_, ?_⟩
  · intro tok
    have hrun : SellTokens.get_wallet_tokens (SellTokens.RpcResult.parsed data) =
        accounts.filterMap SellTokens.parseTokenAccount := by
      simp [SellTokens.get_wallet_tokens, hres, hval]
    rw [hrun]
    simp [List.mem_filterMap]
  · intro account tok h
    unfold SellTokens.parseTokenAccount at h
    repeat' split at h
    all_goals try simp_all
    rename_i hq
    subst h
    exact hq

/-- Witness for C10 at a concrete well-formed wallet response holding one
positive-balance account. -/
theorem C10_wallet_tokens_witness :
    jLookup SellTokens.sampleWalletResponse "result" =
      some (JVal.jObj [("value", JVal.jArr [SellTokens.sampleTokenAccount])]) ∧
    jLookup (JVal.jObj [("value", JVal.jArr [SellTokens.sampleTokenAccount])]) "value" =
      some (JVal.jArr [SellTokens.sampleTokenAccount]) ∧
    SellTokens.parseTokenAccount SellTokens.sampleTokenAccount =
      some (JVal.jStr "m1", (3 : ℚ)) ∧
    0 < ((JVal.jStr "m1", (3 : ℚ))).2 :=
  ⟨rfl, rfl, rfl,
   (C10_wallet_tokens SellTokens.sampleWalletResponse
      (JVal.jObj [("value", JVal.jArr [SellTokens.sampleTokenAccount])])
      [SellTokens.sampleTokenAccount] rfl rfl).2.2
     SellTokens.sampleTokenAccount (JVal.jStr "m1", (3 : ℚ)) rfl⟩
